import Mathlib

/-!
Verification development for the TODO web service repository.

The definitions below are a shallow embedding of the Python sources:
`db_schema.py` (the todos table), `todo_models.py` (request validation),
`todo_repository.py` (the five CRUD functions plus `test_select_one`),
the TODO endpoint handlers of `app.py`, `utils/timing_utils.py`,
`utils/db_backends/__init__.py` (backend selection),
`utils/db_connection.py` (lazy engine and session management) and the
Alembic migration scripts under `alembic/versions/`.

Machine integers are modelled as `Int`/`Nat`; timestamps as `Nat`
(an abstract monotone clock value); timing measurements as `Nat`
counts of hundredths of a millisecond so that the two-decimal
formatting of `timing_utils.py` is exact; JSON payloads as their
serialized `String` form.  Fallible Python code returns
`Option`/`Except`.
-/

/-- SQL parameter values bound into the repository's statements. -/
inductive Value
  | str (s : String)
  | boolV (b : Bool)
  | intV (i : Int)
  | dt (t : Nat)
  | jsonV (j : String)
  | nullV
  deriving Repr, DecidableEq

/-- A row of the `todos` table as defined in `db_schema.py`. -/
structure Row where
  id : Int
  title : String
  description : Option String
  completed : Bool
  priority : Int
  due_date : Option Nat
  payload : Option String
  created_at : Nat
  updated_at : Nat
  deriving Repr, DecidableEq

/-- Database state: the rows of the `todos` table together with the
auto-increment counter for the `id` primary key. -/
structure Db where
  rows : List Row
  nextId : Int
  deriving Repr, DecidableEq

/-- The parameterized SQL statements the repository layer can build
(insert / select-by-id / filtered list select / update / delete /
`SELECT 1`). -/
inductive Stmt
  | insertTodos (vals : List (String × Value))
  | selectById (todo_id : Int)
  | selectList (completed : Option Bool) (priority : Option Int)
  | updateTodos (todo_id : Int) (vals : List (String × Value))
  | deleteById (todo_id : Int)
  | selectOne
  deriving Repr, DecidableEq

/-- Apply one column assignment to a row (SQL `SET col = value` /
insert-values semantics).  Assignments whose column name or value type
does not match a todos column leave the row unchanged. -/
def setField (r : Row) : String × Value → Row
  | ("title", .str t) => { r with title := t }
  | ("description", .str d) => { r with description := some d }
  | ("description", .nullV) => { r with description := none }
  | ("completed", .boolV b) => { r with completed := b }
  | ("priority", .intV p) => { r with priority := p }
  | ("due_date", .dt t) => { r with due_date := some t }
  | ("due_date", .nullV) => { r with due_date := none }
  | ("payload", .jsonV j) => { r with payload := some j }
  | ("payload", .nullV) => { r with payload := none }
  | ("updated_at", .dt t) => { r with updated_at := t }
  | ("created_at", .dt t) => { r with created_at := t }
  | _ => r

/-- A freshly inserted row before the INSERT's explicit values are
applied: column defaults from `db_schema.py` (`completed=False`,
`priority=2`, server-side `now()` timestamps). -/
def defaultRow (id : Int) (now : Nat) : Row :=
  { id := id, title := "", description := none, completed := false, priority := 2,
    due_date := none, payload := none, created_at := now, updated_at := now }

/-- Result of executing one statement: returned rows (for statements
with RETURNING or SELECT) and the affected row count. -/
structure ExecResult where
  rows : List Row
  rowcount : Nat
  deriving Repr

/-- The WHERE conditions `list_todos` adds for the optional
`completed` / `priority` filters, conjoined. -/
def matchesFilters (completed : Option Bool) (priority : Option Int) (r : Row) : Bool :=
  (match completed with | some c => r.completed == c | none => true) &&
  (match priority with | some p => r.priority == p | none => true)

/-- `ORDER BY created_at DESC` comparison: `a` sorts no later than `b`
when `a`'s creation time is at least `b`'s. -/
def createdAtDesc : Row → Row → Prop :=
  fun a b => b.created_at ≤ a.created_at

instance : DecidableRel createdAtDesc :=
  fun a b => Nat.decLe b.created_at a.created_at

instance : IsTotal Row createdAtDesc :=
  ⟨fun a b => Nat.le_total b.created_at a.created_at⟩

instance : IsTrans Row createdAtDesc :=
  ⟨fun _ _ _ hab hbc => Nat.le_trans hbc hab⟩

/-- SQL engine semantics for the statements of the repository layer. -/
def execStmt (db : Db) (now : Nat) : Stmt → ExecResult × Db
  | .insertTodos vals =>
      let row := vals.foldl setField (defaultRow db.nextId now)
      (⟨[row], 1⟩, ⟨db.rows ++ [row], db.nextId + 1⟩)
  | .selectById i => (⟨db.rows.filter (fun r => r.id == i), 0⟩, db)
  | .selectList c p =>
      (⟨(db.rows.filter (matchesFilters c p)).insertionSort createdAtDesc, 0⟩, db)
  | .updateTodos i vals =>
      let touched := (db.rows.filter (fun r => r.id == i)).map (fun r => vals.foldl setField r)
      (⟨touched, touched.length⟩,
       ⟨db.rows.map (fun r => if r.id == i then vals.foldl setField r else r), db.nextId⟩)
  | .deleteById i =>
      (⟨[], (db.rows.filter (fun r => r.id == i)).length⟩,
       ⟨db.rows.filter (fun r => r.id != i), db.nextId⟩)
  | .selectOne => (⟨[], 0⟩, db)

/-- `TodoCreate` after pydantic validation (`todo_models.py`). -/
structure TodoCreate where
  title : String
  description : Option String
  priority : Int
  due_date : Option Nat
  payload : Option String
  deriving Repr, DecidableEq

/-- `TodoUpdate` (`todo_models.py`): every field optional. -/
structure TodoUpdate where
  title : Option String
  description : Option String
  completed : Option Bool
  priority : Option Int
  due_date : Option Nat
  payload : Option String
  deriving Repr, DecidableEq

/-- Lift an optional string to a bound parameter. -/
def optStr : Option String → Value
  | some s => .str s
  | none => .nullV

/-- Lift an optional datetime to a bound parameter. -/
def optDt : Option Nat → Value
  | some t => .dt t
  | none => .nullV

/-- Lift an optional JSON payload to a bound parameter. -/
def optJson : Option String → Value
  | some j => .jsonV j
  | none => .nullV

/-- The values clause of `create_todo`'s INSERT (`todo_repository.py`
lines 59-66): the request fields plus a hard-coded `completed=False`. -/
def createVals (todo_data : TodoCreate) : List (String × Value) :=
  [("title", .str todo_data.title),
   ("description", optStr todo_data.description),
   ("priority", .intV todo_data.priority),
   ("due_date", optDt todo_data.due_date),
   ("payload", optJson todo_data.payload),
   ("completed", .boolV false)]

/-- `create_todo`: one INSERT ... RETURNING.  Returns the created row,
the new database state, and the trace of issued SQL statements. -/
def create_todo (db : Db) (now : Nat) (todo_data : TodoCreate) :
    (Row × Db) × List Stmt :=
  let stmt := Stmt.insertTodos (createVals todo_data)
  let (res, db') := execStmt db now stmt
  ((res.rows.headD (defaultRow 0 now), db'), [stmt])

/-- `get_todo`: one SELECT with a WHERE on the id; `fetchone`. -/
def get_todo (db : Db) (now : Nat) (todo_id : Int) :
    (Option Row × Db) × List Stmt :=
  let stmt := Stmt.selectById todo_id
  let (res, db') := execStmt db now stmt
  ((res.rows.head?, db'), [stmt])

/-- `list_todos`: one SELECT with optional completed/priority filters
and `ORDER BY created_at DESC`. -/
def list_todos (db : Db) (now : Nat) (completed : Option Bool) (priority : Option Int) :
    (List Row × Db) × List Stmt :=
  let stmt := Stmt.selectList completed priority
  let (res, db') := execStmt db now stmt
  ((res.rows, db'), [stmt])

/-- The update-values dict of `update_todo` (`todo_repository.py` lines
221-236): each provided field, then always `updated_at`.  Order
follows the Python insertion order. -/
def buildUpdateValues (todo_data : TodoUpdate) (now : Nat) : List (String × Value) :=
  (match todo_data.title with | some t => [("title", Value.str t)] | none => []) ++
  (match todo_data.description with | some d => [("description", Value.str d)] | none => []) ++
  (match todo_data.completed with | some b => [("completed", Value.boolV b)] | none => []) ++
  (match todo_data.priority with | some p => [("priority", Value.intV p)] | none => []) ++
  (match todo_data.due_date with | some t => [("due_date", Value.dt t)] | none => []) ++
  (match todo_data.payload with | some j => [("payload", Value.jsonV j)] | none => []) ++
  [("updated_at", Value.dt now)]

/-- `update_todo`: builds the update values, keeps the source's
no-fields fallback branch (which would re-issue `get_todo`), else one
UPDATE ... RETURNING. -/
def update_todo (db : Db) (now : Nat) (todo_id : Int) (todo_data : TodoUpdate) :
    (Option Row × Db) × List Stmt :=
  let update_values := buildUpdateValues todo_data now
  if update_values.isEmpty then
    get_todo db now todo_id
  else
    let stmt := Stmt.updateTodos todo_id update_values
    let (res, db') := execStmt db now stmt
    ((res.rows.head?, db'), [stmt])

/-- `delete_todo`: one DELETE; returns whether any row was deleted. -/
def delete_todo (db : Db) (now : Nat) (todo_id : Int) :
    (Bool × Db) × List Stmt :=
  let stmt := Stmt.deleteById todo_id
  let (res, db') := execStmt db now stmt
  ((decide (0 < res.rowcount), db'), [stmt])

/-- `test_select_one`: one `SELECT 1`. -/
def test_select_one (db : Db) (now : Nat) : (Int × Db) × List Stmt :=
  let stmt := Stmt.selectOne
  let (_, db') := execStmt db now stmt
  ((1, db'), [stmt])

/-- `TimingInfo` (`utils/timing_utils.py`); each field is a number of
hundredths of a millisecond, so the `:.2f` formatting is exact. -/
structure TimingInfo where
  connection_acquisition_ms : Nat := 0
  query_execution_ms : Nat := 0
  data_transformation_ms : Nat := 0
  repository_total_ms : Nat := 0
  endpoint_processing_ms : Nat := 0
  response_serialization_ms : Nat := 0
  total_ms : Nat := 0
  deriving Repr, DecidableEq

/-- Two-decimal rendering of a hundredths count (Python `f"{v:.2f}"`). -/
def fmt2 (n : Nat) : String :=
  let frac := n % 100
  let fracStr := if frac < 10 then "0" ++ toString frac else toString frac
  toString (n / 100) ++ "." ++ fracStr

/-- The parts list built by `TimingInfo.to_header_string`: one
`key=value` part per strictly positive field, `total` always last. -/
def TimingInfo.headerParts (t : TimingInfo) : List String :=
  (if 0 < t.connection_acquisition_ms then ["conn=" ++ fmt2 t.connection_acquisition_ms] else []) ++
  (if 0 < t.query_execution_ms then ["query=" ++ fmt2 t.query_execution_ms] else []) ++
  (if 0 < t.data_transformation_ms then ["transform=" ++ fmt2 t.data_transformation_ms] else []) ++
  (if 0 < t.repository_total_ms then ["repo=" ++ fmt2 t.repository_total_ms] else []) ++
  (if 0 < t.endpoint_processing_ms then ["endpoint=" ++ fmt2 t.endpoint_processing_ms] else []) ++
  (if 0 < t.response_serialization_ms then ["serialize=" ++ fmt2 t.response_serialization_ms] else []) ++
  ["total=" ++ fmt2 t.total_ms]

/-- `TimingInfo.to_header_string`: the comma-separated header value. -/
def TimingInfo.to_header_string (t : TimingInfo) : String :=
  String.intercalate "," t.headerParts

/-- `TimingInfo.to_dict`: field-name/value pairs in source order. -/
def TimingInfo.to_dict (t : TimingInfo) : List (String × Nat) :=
  [("connection_acquisition_ms", t.connection_acquisition_ms),
   ("query_execution_ms", t.query_execution_ms),
   ("data_transformation_ms", t.data_transformation_ms),
   ("repository_total_ms", t.repository_total_ms),
   ("endpoint_processing_ms", t.endpoint_processing_ms),
   ("response_serialization_ms", t.response_serialization_ms),
   ("total_ms", t.total_ms)]

/-- `json.dumps(timing_info.to_dict())` as the endpoints serialize it. -/
def timingJson (t : TimingInfo) : String :=
  "\x7b" ++
    String.intercalate ", "
      (t.to_dict.map (fun kv => "\"" ++ kv.1 ++ "\": " ++ fmt2 kv.2)) ++
  "\x7d"

/-- The two timing headers every endpoint sets on its success path. -/
def timingHeaders (t : TimingInfo) : List (String × String) :=
  [("X-Timing", t.to_header_string), ("X-Timing-JSON", timingJson t)]

/-- Outcome of the awaited repository call inside an endpoint handler:
a value, a raised `SQLAlchemyError`, or any other exception. -/
inductive RepoOutcome (α : Type)
  | ok (a : α)
  | sqlError (msg : String)
  | exn (msg : String)
  deriving Repr, DecidableEq

/-- An HTTP response as the handlers produce it: status code, the
`detail` of a raised `HTTPException` (if any), and response headers. -/
structure HttpResponse where
  status : Nat
  detail : Option String
  headers : List (String × String)
  deriving Repr, DecidableEq

/-- `GET /api/todo` handler (`app.py` `list_todos_endpoint`). -/
def list_todos_endpoint (out : RepoOutcome (List Row)) (t : TimingInfo) : HttpResponse :=
  match out with
  | .ok _ => ⟨200, none, timingHeaders t⟩
  | .sqlError m => ⟨500, some ("Database error: " ++ m), []⟩
  | .exn m => ⟨500, some ("Internal server error: " ++ m), []⟩

/-- `GET /api/todo/{todo_id}` handler (`app.py` `get_todo_endpoint`):
404 when the repository returns no row. -/
def get_todo_endpoint (todo_id : Int) (out : RepoOutcome (Option Row)) (t : TimingInfo) :
    HttpResponse :=
  match out with
  | .ok none => ⟨404, some ("TODO with ID " ++ toString todo_id ++ " not found"), []⟩
  | .ok (some _) => ⟨200, none, timingHeaders t⟩
  | .sqlError m => ⟨500, some ("Database error: " ++ m), []⟩
  | .exn m => ⟨500, some ("Internal server error: " ++ m), []⟩

/-- `POST /api/todo` handler (`app.py` `create_todo_endpoint`). -/
def create_todo_endpoint (out : RepoOutcome Row) (t : TimingInfo) : HttpResponse :=
  match out with
  | .ok _ => ⟨201, none, timingHeaders t⟩
  | .sqlError m => ⟨500, some ("Database error: " ++ m), []⟩
  | .exn m => ⟨500, some ("Internal server error: " ++ m), []⟩

/-- `PUT /api/todo/{todo_id}` handler (`app.py` `update_todo_endpoint`). -/
def update_todo_endpoint (todo_id : Int) (out : RepoOutcome (Option Row)) (t : TimingInfo) :
    HttpResponse :=
  match out with
  | .ok none => ⟨404, some ("TODO with ID " ++ toString todo_id ++ " not found"), []⟩
  | .ok (some _) => ⟨200, none, timingHeaders t⟩
  | .sqlError m => ⟨500, some ("Database error: " ++ m), []⟩
  | .exn m => ⟨500, some ("Internal server error: " ++ m), []⟩

/-- `DELETE /api/todo/{todo_id}` handler (`app.py`
`delete_todo_endpoint`): 404 when nothing was deleted, else 204. -/
def delete_todo_endpoint (todo_id : Int) (out : RepoOutcome Bool) (t : TimingInfo) :
    HttpResponse :=
  match out with
  | .ok false => ⟨404, some ("TODO with ID " ++ toString todo_id ++ " not found"), []⟩
  | .ok true => ⟨204, none, timingHeaders t⟩
  | .sqlError m => ⟨500, some ("Database error: " ++ m), []⟩
  | .exn m => ⟨500, some ("Internal server error: " ++ m), []⟩

/-- `GET /api/test/select-one` handler (`app.py`
`test_select_one_endpoint`). -/
def test_select_one_endpoint (out : RepoOutcome Int) (t : TimingInfo) : HttpResponse :=
  match out with
  | .ok _ => ⟨200, none, timingHeaders t⟩
  | .sqlError m => ⟨500, some ("Database error: " ++ m), []⟩
  | .exn m => ⟨500, some ("Internal server error: " ++ m), []⟩

/-- The raw JSON body of a create request before pydantic validation:
`priority` may be absent (pydantic then supplies the default `2`). -/
structure TodoCreateRaw where
  title : Option String
  description : Option String
  priority : Option Int
  due_date : Option Nat
  payload : Option String
  deriving Repr, DecidableEq

/-- Pydantic validation of `TodoCreate` (`todo_models.py`): `title`
required with `min_length=1`, `max_length=255` and non-blank after
stripping; `priority` defaults to `2` and must satisfy `ge=0`, `le=4`. -/
def validateCreate (raw : TodoCreateRaw) : Option TodoCreate :=
  match raw.title with
  | none => none
  | some t =>
    if t.length < 1 then none
    else if 255 < t.length then none
    else
      let p := raw.priority.getD 2
      if p < 0 then none
      else if 4 < p then none
      else if t.trim = "" then none
      else some { title := t.trim, description := raw.description, priority := p,
                  due_date := raw.due_date, payload := raw.payload }

/-- Pydantic validation of `TodoUpdate` (`todo_models.py`): the same
constraints, applied only to fields that are provided; a provided
title is stripped. -/
def validateUpdate (raw : TodoUpdate) : Option TodoUpdate :=
  let titleOK : Option (Option String) :=
    match raw.title with
    | none => some none
    | some t =>
      if t.length < 1 then none
      else if 255 < t.length then none
      else if t.trim = "" then none
      else some (some t.trim)
  match titleOK with
  | none => none
  | some title' =>
    match raw.priority with
    | some p =>
      if p < 0 then none
      else if 4 < p then none
      else some { raw with title := title' }
    | none => some { raw with title := title' }

/-- The create route including FastAPI request validation: an invalid
body is rejected before the handler runs, so no SQL is issued. -/
def create_todo_route (db : Db) (now : Nat) (raw : TodoCreateRaw) (t : TimingInfo) :
    (HttpResponse × Db) × List Stmt :=
  match validateCreate raw with
  | none => ((⟨422, some "request validation error", []⟩, db), [])
  | some todo_data =>
    let ((row, db'), stmts) := create_todo db now todo_data
    ((create_todo_endpoint (.ok row) t, db'), stmts)

/-- The update route including FastAPI request validation. -/
def update_todo_route (db : Db) (now : Nat) (todo_id : Int) (raw : TodoUpdate)
    (t : TimingInfo) : (HttpResponse × Db) × List Stmt :=
  match validateUpdate raw with
  | none => ((⟨422, some "request validation error", []⟩, db), [])
  | some todo_data =>
    let ((row?, db'), stmts) := update_todo db now todo_id todo_data
    ((update_todo_endpoint todo_id (.ok row?) t, db'), stmts)

/-! ### Database backend selection (`utils/db_backends/__init__.py`) -/

/-- Python `str.lower()` (ASCII), character by character. -/
def strToLower (s : String) : String :=
  ⟨s.data.map Char.toLower⟩

/-- Python `str.startswith(p)`. -/
def strStartsWith (s p : String) : Bool :=
  p.data.isPrefixOf s.data

/-- Python `str.endswith(p)`. -/
def strEndsWith (s p : String) : Bool :=
  p.data.isSuffixOf s.data

/-- Python `c in s` for a single character. -/
def strContainsChar (s : String) (c : Char) : Bool :=
  s.data.contains c

/-- A database configuration dictionary, with the keys
`detect_backend_type` inspects.  `hasHost`/`hasPort` record mere key
presence, which is all the source checks for them. -/
structure DbConfig where
  type? : Option String
  url? : Option String
  database? : Option String
  hasHost : Bool
  hasPort : Bool
  deriving Repr, DecidableEq

/-- `detect_backend_type`: explicit `type` field first, then URL
scheme sniffing (falling through when no known scheme matches), then
the SQLite file-path heuristic, defaulting to `postgresql`. -/
def detect_backend_type (config : DbConfig) : String :=
  match config.type? with
  | some t => strToLower t
  | none =>
    let fromUrl : Option String :=
      match config.url? with
      | some u =>
        let url := strToLower u
        if strStartsWith url "sqlite" then some "sqlite"
        else if strStartsWith url "postgresql" then some "postgresql"
        else if strStartsWith url "mysql" then some "mysql"
        else none
      | none => none
    match fromUrl with
    | some r => r
    | none =>
      match config.database? with
      | some dbPath =>
        if !config.hasHost && !config.hasPort &&
            (strEndsWith dbPath ".db" || strContainsChar dbPath '/' ||
              strContainsChar dbPath '\\') then
          "sqlite"
        else "postgresql"
      | none => "postgresql"

/-- The backend registry after module import: `postgresql` and
`sqlite` auto-register themselves. -/
def registeredBackends : List String := ["postgresql", "sqlite"]

/-- `get_backend`: look the lowercased name up in the registry and
instantiate it, or raise `ValueError`.  The instance is modelled by
the registered name. -/
def get_backend (name : String) : Except String String :=
  let backend_name := strToLower name
  if registeredBackends.contains backend_name then Except.ok backend_name
  else Except.error ("Unknown database backend " ++ name)

/-! ### Migrations (`alembic/versions/`, `db_migrations.py`) -/

/-- Schema state affected by the three migration scripts: whether the
`todos` table exists, its columns, and its indexes. -/
structure Schema where
  hasTodosTable : Bool
  columns : List String
  indexes : List String
  deriving Repr, DecidableEq

/-- The DDL statements the migration scripts issue. -/
inductive Ddl
  | createTodosTable (cols : List String)
  | createIndexIfNotExists (name : String)
  | addColumn (col : String)
  deriving Repr, DecidableEq

/-- DDL semantics: unguarded `CREATE TABLE` and `ADD COLUMN` fail when
the object already exists; `CREATE INDEX IF NOT EXISTS` never fails
and leaves an existing index untouched. -/
def execDdl (s : Schema) : Ddl → Except String Schema
  | .createTodosTable cols =>
      if s.hasTodosTable then Except.error "relation todos already exists"
      else Except.ok { s with hasTodosTable := true, columns := cols }
  | .createIndexIfNotExists n =>
      if s.indexes.contains n then Except.ok s
      else Except.ok { s with indexes := s.indexes ++ [n] }
  | .addColumn c =>
      if s.columns.contains c then Except.error ("duplicate column name: " ++ c)
      else Except.ok { s with columns := s.columns ++ [c] }

/-- Run a migration script's DDL statements in order, stopping at the
first failure. -/
def runDdl (s : Schema) : List Ddl → Except String Schema
  | [] => Except.ok s
  | d :: ds =>
    match execDdl s d with
    | Except.ok s' => runDdl s' ds
    | Except.error e => Except.error e

/-- `b2be44556bf2_initial_todos_table.py` `upgrade`: one unguarded
`CREATE TABLE todos`. -/
def initialTodosTableUpgrade : List Ddl :=
  [.createTodosTable ["id", "title", "description", "completed", "priority",
                      "due_date", "created_at", "updated_at"]]

/-- `add_todo_indexes.py` `upgrade`: four `CREATE INDEX IF NOT EXISTS`
statements. -/
def addTodoIndexesUpgrade : List Ddl :=
  [.createIndexIfNotExists "idx_todos_completed",
   .createIndexIfNotExists "idx_todos_priority",
   .createIndexIfNotExists "idx_todos_created_at",
   .createIndexIfNotExists "idx_todos_completed_priority"]

/-- `add_payload_column_to_todos.py` `upgrade`: one unguarded
`ALTER TABLE todos ADD COLUMN payload` (JSON, dialect-dependent type,
same DDL shape either way). -/
def addPayloadColumnUpgrade : List Ddl :=
  [.addColumn "payload"]

/-- The revision chain in order, with each revision's DDL. -/
def migrationChain : List (String × List Ddl) :=
  [("b2be44556bf2", initialTodosTableUpgrade),
   ("add_todo_indexes", addTodoIndexesUpgrade),
   ("add_payload_column", addPayloadColumnUpgrade)]

/-- The head revision of the chain. -/
def headRev : String := "add_payload_column"

/-- Alembic-tracked migration state: current revision stamp plus the
schema. -/
structure MigState where
  currentRev : Option String
  schema : Schema
  deriving Repr, DecidableEq

/-- The scripts still pending after `currentRev` (the suffix of the
chain strictly after the stamped revision). -/
def pendingAfter : Option String → List (String × List Ddl)
  | none => migrationChain
  | some r =>
    match migrationChain.dropWhile (fun step => step.1 != r) with
    | [] => []
    | _ :: rest => rest

/-- `run_migrations` (`db_migrations.py`): compare the stamped
revision with head; if equal, return without executing anything;
otherwise apply each pending script's DDL in order, stamping each
revision as it completes.  Also returns the trace of executed DDL. -/
def run_migrations (st : MigState) : Except String (MigState × List Ddl) :=
  if st.currentRev = some headRev then Except.ok (st, [])
  else
    (pendingAfter st.currentRev).foldl
      (fun acc step =>
        match acc with
        | Except.error e => Except.error e
        | Except.ok (st', trace) =>
          match runDdl st'.schema step.2 with
          | Except.ok schema' => Except.ok (⟨some step.1, schema'⟩, trace ++ step.2)
          | Except.error e => Except.error e)
      (Except.ok (st, []))

/-! ### Connection and session management (`utils/db_connection.py`) -/

/-- The module-level globals `_async_engine` and
`_async_session_factory`; engine instances are identified by `Nat`
ids. -/
structure ConnState where
  engine : Option Nat
  factory : Option Nat
  deriving Repr, DecidableEq

/-- `get_async_engine`: return the cached engine, or construct an
engine and session factory from a fresh id.  The `Bool` records
whether a construction happened. -/
def get_async_engine (s : ConnState) (fresh : Nat) : Nat × ConnState × Bool :=
  match s.engine with
  | some e => (e, s, false)
  | none => (fresh, ⟨some fresh, some fresh⟩, true)

/-- `close_async_engine`: dispose and reset both globals when an
engine exists. -/
def close_async_engine (s : ConnState) : ConnState :=
  match s.engine with
  | some _ => ⟨none, none⟩
  | none => s

/-- What the code inside an `async with get_async_session()` block
produced: a value together with the pending (uncommitted) database
state, or a raised exception. -/
inductive BlockResult (α : Type)
  | ok (a : α) (pending : Db)
  | exn (msg : String)

/-- Session lifecycle actions taken by `get_async_session`. -/
inductive SessAction
  | commit
  | rollback
  deriving Repr, DecidableEq

/-- `get_async_session`: run the block; on normal completion commit
(the pending state becomes durable), on any exception roll back
(the database keeps its prior state) and re-raise. -/
def get_async_session (db : Db) (block : Db → BlockResult α) :
    Except String α × Db × List SessAction :=
  match block db with
  | .ok a pending => (Except.ok a, pending, [SessAction.commit])
  | .exn m => (Except.error m, db, [SessAction.rollback])

/-- The priority range documented by the schema and enforced by the
pydantic models: `0=Critical .. 4=Backlog`. -/
def priorityOK (r : Row) : Prop :=
  0 ≤ r.priority ∧ r.priority ≤ 4

/-- Invariant: every stored TODO row has a priority in `0..4`. -/
def DbOK (db : Db) : Prop :=
  ∀ r ∈ db.rows, priorityOK r

/-- A configuration with a MySQL URL and no explicit type field. -/
def mysqlConfig : DbConfig :=
  ⟨none, some "mysql://db.example.com/genesis", none, false, false⟩

/-- A fresh, never-migrated database's migration state. -/
def freshMigState : MigState :=
  ⟨none, ⟨false, [], []⟩⟩

/-- The schema after all three migration scripts have been applied. -/
def appliedSchema : Schema :=
  ⟨true,
   ["id", "title", "description", "completed", "priority",
    "due_date", "created_at", "updated_at", "payload"],
   ["idx_todos_completed", "idx_todos_priority", "idx_todos_created_at",
    "idx_todos_completed_priority"]⟩

/-! ### Sample values used by witness theorems -/

/-- A sample row. -/
def rowEx : Row :=
  ⟨1, "write spec", none, false, 2, none, none, 5, 5⟩

/-- A sample database holding two rows. -/
def dbEx : Db :=
  ⟨[rowEx, ⟨2, "review spec", some "second pass", true, 1, none, none, 9, 9⟩], 3⟩

/-- A sample create request body. -/
def rawCreateEx : TodoCreateRaw :=
  ⟨some "buy milk", none, none, none, none⟩

/-- A sample update request body. -/
def rawUpdateEx : TodoUpdate :=
  ⟨none, none, some true, some 3, none, none⟩

/-! ### Helper lemmas -/

/-- The row `create_todo` inserts, field by field: the request fields,
`completed` hard-coded to `false`, server-side timestamps. -/
theorem create_row_spec (db : Db) (now : Nat) (c : TodoCreate) :
    (create_todo db now c).1.1 =
      { id := db.nextId, title := c.title, description := c.description,
        completed := false, priority := c.priority, due_date := c.due_date,
        payload := c.payload, created_at := now, updated_at := now } := by
  rcases c with ⟨t, d, p, dd, pl⟩
  cases d <;> cases dd <;> cases pl <;> rfl

/-- The database state after `create_todo`: the new row appended and
the id counter advanced. -/
theorem create_db_spec (db : Db) (now : Nat) (c : TodoCreate) :
    (create_todo db now c).1.2 =
      ⟨db.rows ++ [{ id := db.nextId, title := c.title, description := c.description,
                     completed := false, priority := c.priority, due_date := c.due_date,
                     payload := c.payload, created_at := now, updated_at := now }],
       db.nextId + 1⟩ := by
  rcases c with ⟨t, d, p, dd, pl⟩
  cases d <;> cases dd <;> cases pl <;> rfl

/-- Applying `update_todo`'s SET clause to a row changes `priority`
to the provided value, or keeps it when none was provided. -/
theorem applyUpdate_priority (r : Row) (u : TodoUpdate) (now : Nat) :
    ((buildUpdateValues u now).foldl setField r).priority = u.priority.getD r.priority := by
  rcases u with ⟨t, d, cb, p, dd, pl⟩
  cases t <;> cases d <;> cases cb <;> cases p <;> cases dd <;> cases pl <;> rfl

/-- The update-values list always ends with the `updated_at`
assignment, hence is never empty. -/
theorem buildUpdateValues_ne_nil (u : TodoUpdate) (now : Nat) :
    (buildUpdateValues u now).isEmpty = false := by
  rcases u with ⟨t, d, cb, p, dd, pl⟩
  cases t <;> cases d <;> cases cb <;> cases p <;> cases dd <;> cases pl <;> rfl

/-! ### Claim theorems -/

/-- C1: each of the five TODO repository functions issues exactly one
parameterized SQL statement per invocation, for every input; in
particular `update_todo` issues exactly one UPDATE even when every
field of the `TodoUpdate` is `None`, because `updated_at` is always
added to the update values, making the no-fields fallback branch
(which would call `get_todo`) unreachable. -/
theorem crud_single_statement (db : Db) (now : Nat) (c : TodoCreate) (i : Int)
    (u : TodoUpdate) (cf : Option Bool) (pf : Option Int) :
    (create_todo db now c).2.length = 1 ∧
    (get_todo db now i).2.length = 1 ∧
    (list_todos db now cf pf).2.length = 1 ∧
    (delete_todo db now i).2.length = 1 ∧
    (update_todo db now i u).2 =
      [Stmt.updateTodos i (buildUpdateValues u now)] ∧
    (update_todo db now i ⟨none, none, none, none, none, none⟩).2 =
      [Stmt.updateTodos i (buildUpdateValues ⟨none, none, none, none, none, none⟩ now)] := by
  refine ⟨rfl, rfl, rfl, rfl, ?_, ?_⟩
  · unfold update_todo
    simp [buildUpdateValues_ne_nil u now]
  · unfold update_todo
    simp [buildUpdateValues_ne_nil ⟨none, none, none, none, none, none⟩ now]

/-- C8: for every `TodoCreate` input, the TODO created by
`create_todo` has `completed = false`: the INSERT's values hard-code
`completed=False`, and the created row's flag is `false` regardless of
the request content. -/
theorem create_todo_never_completed (db : Db) (now : Nat) (c : TodoCreate) :
    ((create_todo db now c).1.1).completed = false ∧
    ("completed", Value.boolV false) ∈ createVals c ∧
    ∀ r ∈ (create_todo db now c).1.2.rows, r ∈ db.rows ∨ r.completed = false := by
  refine ⟨?_, ?_, ?_⟩
  · rw [create_row_spec]
  · simp [createVals]
  · intro r hr
    rw [create_db_spec] at hr
    rcases List.mem_append.mp hr with h | h
    · exact Or.inl h
    · right
      simp only [List.mem_singleton] at h
      rw [h]

/-- C10: for every combination of the optional `completed` and
`priority` filters, `list_todos` returns exactly the rows matching all
provided filters (all rows when both are `None`), ordered by
`created_at` descending. -/
theorem list_todos_filters_and_order (db : Db) (now : Nat) (cf : Option Bool)
    (pf : Option Int) :
    (∀ r : Row, r ∈ (list_todos db now cf pf).1.1 ↔
        r ∈ db.rows ∧ matchesFilters cf pf r = true) ∧
    (∀ r : Row, matchesFilters cf pf r = true ↔
        (cf = none ∨ some r.completed = cf) ∧ (pf = none ∨ some r.priority = pf)) ∧
    (list_todos db now cf pf).1.1.Pairwise
      (fun a b => b.created_at ≤ a.created_at) := by
  refine ⟨?_, ?_, ?_⟩
  · intro r
    simp [list_todos, execStmt, List.mem_filter]
  · intro r
    cases cf <;> cases pf <;> simp [matchesFilters]
  · have h := List.sorted_insertionSort createdAtDesc (db.rows.filter (matchesFilters cf pf))
    exact h

/-- C6: the async engine and session factory are constructed lazily at
most once: the first `get_async_engine` call constructs both globals,
every later call returns the identical engine without constructing a
new one, and `close_async_engine` resets both globals. -/
theorem engine_constructed_once (s : ConnState) (f g e : Nat) :
    (s.engine = none →
      get_async_engine s f = (f, ⟨some f, some f⟩, true)) ∧
    (s.engine = some e → get_async_engine s f = (e, s, false)) ∧
    (get_async_engine (get_async_engine s f).2.1 g =
      ((get_async_engine s f).1, (get_async_engine s f).2.1, false)) ∧
    close_async_engine (get_async_engine s f).2.1 = ⟨none, none⟩ := by
  refine ⟨?_, ?_, ?_, ?_⟩
  · intro h
    cases hs : s.engine with
    | none => simp [get_async_engine, hs]
    | some e' => rw [hs] at h; exact Option.noConfusion h
  · intro h
    simp [get_async_engine, h]
  · cases hs : s.engine <;> simp [get_async_engine, hs]
  · cases hs : s.engine <;> simp [get_async_engine, close_async_engine, hs]

/-- Witness for C6 at a concrete state: from empty globals, the first
call constructs the engine with the fresh id. -/
theorem engine_constructed_once_witness :
    get_async_engine ⟨none, none⟩ 5 = (5, ⟨some 5, some 5⟩, true) :=
  (engine_constructed_once ⟨none, none⟩ 5 7 0).1 rfl

/-- C9: a session obtained from `get_async_session` is atomic with
respect to errors: it commits exactly when the enclosed block
completes without raising; on any exception it rolls back, re-raises
the same exception, and the database state is left unchanged. -/
theorem session_atomic {α : Type} (db pending : Db) (a : α) (m : String)
    (block : Db → BlockResult α) :
    (block db = .ok a pending →
      get_async_session db block = (Except.ok a, pending, [SessAction.commit])) ∧
    (block db = .exn m →
      get_async_session db block = (Except.error m, db, [SessAction.rollback])) ∧
    (SessAction.commit ∈ (get_async_session db block).2.2 ↔
      ∃ a' pending', block db = .ok a' pending') := by
  refine ⟨?_, ?_, ?_⟩
  · intro h
    simp [get_async_session, h]
  · intro h
    simp [get_async_session, h]
  · cases hb : block db with
    | ok a' pending' =>
      simp only [get_async_session, hb]
      exact ⟨fun _ => ⟨a', pending', rfl⟩, fun _ => List.mem_singleton.mpr rfl⟩
    | exn m' =>
      simp [get_async_session, hb]

/-- Witness for C9 at a concrete block: a block that raises leaves the
sample database unchanged and rolls back. -/
theorem session_atomic_witness :
    get_async_session dbEx (fun _ => (BlockResult.exn "boom" : BlockResult Int)) =
      (Except.error "boom", dbEx, [SessAction.rollback]) :=
  (session_atomic dbEx dbEx 0 "boom" (fun _ => BlockResult.exn "boom")).2.1 rfl

/-- The database state after `update_todo`: rows with the matching id
get the SET clause applied, all others are unchanged. -/
theorem update_db_spec (db : Db) (now : Nat) (i : Int) (u : TodoUpdate) :
    (update_todo db now i u).1.2 =
      ⟨db.rows.map (fun r =>
          if r.id == i then (buildUpdateValues u now).foldl setField r else r),
       db.nextId⟩ := by
  unfold update_todo
  simp [buildUpdateValues_ne_nil u now, execStmt]

/-- A validated create request has its priority within bounds, and
equal to the raw priority with default `2`. -/
theorem validateCreate_spec (raw : TodoCreateRaw) (c : TodoCreate)
    (h : validateCreate raw = some c) :
    0 ≤ c.priority ∧ c.priority ≤ 4 ∧ c.priority = raw.priority.getD 2 := by
  rcases raw with ⟨t?, d?, p?, dd?, pl?⟩
  unfold validateCreate at h
  dsimp only at h
  repeat' split at h
  all_goals first
    | exact Option.noConfusion h
    | (cases h
       refine ⟨?_, ?_, rfl⟩ <;> (dsimp only; omega))

/-- A create request whose provided priority is out of `0..4` fails
validation. -/
theorem validateCreate_bad_priority (raw : TodoCreateRaw) (p : Int)
    (hp : raw.priority = some p) (hbad : p < 0 ∨ 4 < p) :
    validateCreate raw = none := by
  rcases raw with ⟨t?, d?, p?, dd?, pl?⟩
  simp only at hp
  subst hp
  unfold validateCreate
  dsimp only
  simp only [Option.getD_some]
  repeat' split
  all_goals first
    | rfl
    | (exfalso; omega)

/-- A validated update keeps the raw priority, and a provided priority
is within bounds. -/
theorem validateUpdate_spec (raw u : TodoUpdate) (h : validateUpdate raw = some u) :
    u.priority = raw.priority ∧ ∀ q, u.priority = some q → 0 ≤ q ∧ q ≤ 4 := by
  rcases raw with ⟨t?, d?, cb?, p?, dd?, pl?⟩
  unfold validateUpdate at h
  cases p? <;>
  · dsimp only at h
    repeat' split at h
    all_goals first
      | exact Option.noConfusion h
      | (cases h
         refine ⟨rfl, fun q hq => ?_⟩
         first
           | exact Option.noConfusion hq
           | (cases hq; omega))

/-- An update request whose provided priority is out of `0..4` fails
validation. -/
theorem validateUpdate_bad_priority (raw : TodoUpdate) (p : Int)
    (hp : raw.priority = some p) (hbad : p < 0 ∨ 4 < p) :
    validateUpdate raw = none := by
  rcases raw with ⟨t?, d?, cb?, p?, dd?, pl?⟩
  simp only at hp
  subst hp
  unfold validateUpdate
  dsimp only
  repeat' split
  all_goals first
    | rfl
    | (exfalso; omega)

/-- When validation succeeds, the create route runs `create_todo` on
the validated model. -/
theorem create_route_some (db : Db) (now : Nat) (raw : TodoCreateRaw) (t : TimingInfo)
    (c : TodoCreate) (hv : validateCreate raw = some c) :
    create_todo_route db now raw t =
      ((create_todo_endpoint (.ok (create_todo db now c).1.1) t,
        (create_todo db now c).1.2),
       (create_todo db now c).2) := by
  unfold create_todo_route
  rw [hv]

/-- When validation succeeds, the update route runs `update_todo` on
the validated model. -/
theorem update_route_some (db : Db) (now : Nat) (i : Int) (raw : TodoUpdate)
    (t : TimingInfo) (u : TodoUpdate) (hv : validateUpdate raw = some u) :
    update_todo_route db now i raw t =
      ((update_todo_endpoint i (.ok (update_todo db now i u).1.1) t,
        (update_todo db now i u).1.2),
       (update_todo db now i u).2) := by
  unfold update_todo_route
  rw [hv]

/-- C5: every TODO stored or returned by the service has a priority in
`0..4`: create requests default the priority to `2`, create and update
requests with an out-of-range priority are rejected by validation
before any SQL statement is issued, and both routes preserve the
invariant that all stored rows have priority in `0..4`. -/
theorem todo_priority_in_range (raw : TodoCreateRaw) (c : TodoCreate)
    (rawU u : TodoUpdate) (db : Db) (now : Nat) (i p : Int) (t : TimingInfo) :
    (validateCreate raw = some c →
      0 ≤ c.priority ∧ c.priority ≤ 4 ∧ (raw.priority = none → c.priority = 2)) ∧
    (validateUpdate rawU = some u → ∀ q, u.priority = some q → 0 ≤ q ∧ q ≤ 4) ∧
    (raw.priority = some p → p < 0 ∨ 4 < p →
      (create_todo_route db now raw t).2 = [] ∧
      (create_todo_route db now raw t).1.2 = db) ∧
    (rawU.priority = some p → p < 0 ∨ 4 < p →
      (update_todo_route db now i rawU t).2 = [] ∧
      (update_todo_route db now i rawU t).1.2 = db) ∧
    (DbOK db → DbOK ((create_todo_route db now raw t).1.2)) ∧
    (DbOK db → DbOK ((update_todo_route db now i rawU t).1.2)) := by
  refine ⟨?_, ?_, ?_, ?_, ?_, ?_⟩
  · intro h
    obtain ⟨h1, h2, h3⟩ := validateCreate_spec raw c h
    exact ⟨h1, h2, fun hn => by rw [h3, hn]; rfl⟩
  · intro h
    exact (validateUpdate_spec rawU u h).2
  · intro hp hbad
    have hv := validateCreate_bad_priority raw p hp hbad
    constructor <;> (unfold create_todo_route; rw [hv])
  · intro hp hbad
    have hv := validateUpdate_bad_priority rawU p hp hbad
    constructor <;> (unfold update_todo_route; rw [hv])
  · intro hdb
    cases hv : validateCreate raw with
    | none =>
      unfold create_todo_route
      rw [hv]
      exact hdb
    | some c' =>
      rw [create_route_some db now raw t c' hv]
      dsimp only
      rw [create_db_spec]
      intro r hr
      rcases List.mem_append.mp hr with hmem | hmem
      · exact hdb r hmem
      · simp only [List.mem_singleton] at hmem
        subst hmem
        obtain ⟨h1, h2, _⟩ := validateCreate_spec raw c' hv
        exact ⟨h1, h2⟩
  · intro hdb
    cases hv : validateUpdate rawU with
    | none =>
      unfold update_todo_route
      rw [hv]
      exact hdb
    | some u' =>
      rw [update_route_some db now i rawU t u' hv]
      dsimp only
      rw [update_db_spec]
      intro r hr
      rcases List.mem_map.mp hr with ⟨r₀, hr₀, hEq⟩
      by_cases hid : (r₀.id == i) = true
      · rw [if_pos hid] at hEq
        subst hEq
        have hpr := applyUpdate_priority r₀ u' now
        cases hu : u'.priority with
        | some q =>
          obtain ⟨hq1, hq2⟩ := (validateUpdate_spec rawU u' hv).2 q hu
          exact ⟨by rw [hpr, hu]; simpa using hq1, by rw [hpr, hu]; simpa using hq2⟩
        | none =>
          obtain ⟨h1, h2⟩ := hdb r₀ hr₀
          exact ⟨by rw [hpr, hu]; simpa using h1, by rw [hpr, hu]; simpa using h2⟩
      · rw [if_neg hid] at hEq
        subst hEq
        exact hdb r₀ hr₀

/-- Witness for C5: the sample create request (priority absent, so
defaulted to 2) keeps the sample database's priority invariant. -/
theorem todo_priority_in_range_witness :
    DbOK ((create_todo_route dbEx 11 rawCreateEx ⟨0, 0, 0, 0, 0, 0, 0⟩).1.2) :=
  (todo_priority_in_range rawCreateEx ⟨"x", none, 2, none, none⟩ rawUpdateEx rawUpdateEx
      dbEx 11 1 0 ⟨0, 0, 0, 0, 0, 0, 0⟩).2.2.2.2.1
    (by unfold DbOK priorityOK; decide)

/-- Membership in a conditional singleton list forces equality. -/
theorem mem_ite_singleton {b : Prop} [Decidable b] {x part : String}
    (h : part ∈ if b then [x] else []) : part = x := by
  split at h
  · simpa using h
  · simp at h

/-- C7: every successful response from a TODO endpoint (list, get,
create, update, delete, select-one) carries the X-Timing header in the
comma-separated key=value format of `to_header_string` and the
X-Timing-JSON header with the JSON serialization of the timing
fields. -/
theorem timing_headers_on_success (t : TimingInfo) (rows : List Row) (r : Row)
    (i v : Int) :
    (list_todos_endpoint (.ok rows) t).headers = timingHeaders t ∧
    (get_todo_endpoint i (.ok (some r)) t).headers = timingHeaders t ∧
    (create_todo_endpoint (.ok r) t).headers = timingHeaders t ∧
    (update_todo_endpoint i (.ok (some r)) t).headers = timingHeaders t ∧
    (delete_todo_endpoint i (.ok true) t).headers = timingHeaders t ∧
    (test_select_one_endpoint (.ok v) t).headers = timingHeaders t ∧
    timingHeaders t =
      [("X-Timing", t.to_header_string), ("X-Timing-JSON", timingJson t)] ∧
    t.to_header_string = String.intercalate "," t.headerParts ∧
    (∀ part ∈ t.headerParts, ∃ k val, part = k ++ "=" ++ val ∧
      k ∈ ["conn", "query", "transform", "repo", "endpoint", "serialize", "total"]) := by
  refine ⟨rfl, rfl, rfl, rfl, rfl, rfl, rfl, rfl, ?_⟩
  intro part hp
  unfold TimingInfo.headerParts at hp
  rcases List.mem_append.mp hp with h6 | hTot
  · rcases List.mem_append.mp h6 with h5 | hSer
    · rcases List.mem_append.mp h5 with h4 | hEnd
      · rcases List.mem_append.mp h4 with h3 | hRepo
        · rcases List.mem_append.mp h3 with h2 | hTrans
          · rcases List.mem_append.mp h2 with hConn | hQuery
            · exact ⟨"conn", fmt2 t.connection_acquisition_ms,
                (mem_ite_singleton hConn).trans rfl, by decide⟩
            · exact ⟨"query", fmt2 t.query_execution_ms,
                (mem_ite_singleton hQuery).trans rfl, by decide⟩
          · exact ⟨"transform", fmt2 t.data_transformation_ms,
              (mem_ite_singleton hTrans).trans rfl, by decide⟩
        · exact ⟨"repo", fmt2 t.repository_total_ms,
            (mem_ite_singleton hRepo).trans rfl, by decide⟩
      · exact ⟨"endpoint", fmt2 t.endpoint_processing_ms,
          (mem_ite_singleton hEnd).trans rfl, by decide⟩
    · exact ⟨"serialize", fmt2 t.response_serialization_ms,
        (mem_ite_singleton hSer).trans rfl, by decide⟩
  · refine ⟨"total", fmt2 t.total_ms, ?_, by decide⟩
    have := List.mem_singleton.mp hTot
    exact this.trans rfl

/-- Witness for C7: the `total` part of a concrete timing header
splits as key=value with a known key. -/
theorem timing_headers_on_success_witness :
    ∃ k val, "total=0.75" = k ++ "=" ++ val ∧
      k ∈ ["conn", "query", "transform", "repo", "endpoint", "serialize", "total"] :=
  (timing_headers_on_success ⟨0, 0, 0, 0, 0, 0, 75⟩ [] rowEx 1 1).2.2.2.2.2.2.2.2
    "total=0.75" (by decide)

/-- C4 counterexample: a GET for a missing TODO id is a failure that
responds 404, not 500, so 500 is not the only failure status at the
TODO API. -/
theorem todo_api_500_counterexample :
    (get_todo_endpoint 7 (RepoOutcome.ok none) ⟨0, 0, 0, 0, 0, 0, 0⟩).status = 404 ∧
    ¬ (get_todo_endpoint 7 (RepoOutcome.ok none) ⟨0, 0, 0, 0, 0, 0, 0⟩).status = 500 := by
  constructor
  · rfl
  · decide

/-- C4 (amended): repository exceptions at every TODO endpoint surface
as a generic 500 whose detail contains the caught exception's message;
additionally a missing TODO id at get/update/delete yields 404, and
the handlers produce no failure status other than 404 and 500. -/
theorem todo_api_failure_statuses (i : Int) (m : String) (t : TimingInfo)
    (outL : RepoOutcome (List Row)) (outO outO2 : RepoOutcome (Option Row))
    (outR : RepoOutcome Row) (outB : RepoOutcome Bool) (outI : RepoOutcome Int) :
    (list_todos_endpoint (.sqlError m) t = ⟨500, some ("Database error: " ++ m), []⟩) ∧
    (list_todos_endpoint (.exn m) t = ⟨500, some ("Internal server error: " ++ m), []⟩) ∧
    (get_todo_endpoint i (.sqlError m) t = ⟨500, some ("Database error: " ++ m), []⟩) ∧
    (get_todo_endpoint i (.exn m) t = ⟨500, some ("Internal server error: " ++ m), []⟩) ∧
    (create_todo_endpoint (.sqlError m) t = ⟨500, some ("Database error: " ++ m), []⟩) ∧
    (create_todo_endpoint (.exn m) t = ⟨500, some ("Internal server error: " ++ m), []⟩) ∧
    (update_todo_endpoint i (.sqlError m) t = ⟨500, some ("Database error: " ++ m), []⟩) ∧
    (update_todo_endpoint i (.exn m) t = ⟨500, some ("Internal server error: " ++ m), []⟩) ∧
    (delete_todo_endpoint i (.sqlError m) t = ⟨500, some ("Database error: " ++ m), []⟩) ∧
    (delete_todo_endpoint i (.exn m) t = ⟨500, some ("Internal server error: " ++ m), []⟩) ∧
    (test_select_one_endpoint (.sqlError m) t = ⟨500, some ("Database error: " ++ m), []⟩) ∧
    ((get_todo_endpoint i (.ok none) t).status = 404) ∧
    ((update_todo_endpoint i (.ok none) t).status = 404) ∧
    ((delete_todo_endpoint i (.ok false) t).status = 404) ∧
    ((list_todos_endpoint outL t).status = 200 ∨
      (list_todos_endpoint outL t).status = 500) ∧
    ((get_todo_endpoint i outO t).status = 200 ∨
      (get_todo_endpoint i outO t).status = 404 ∨
      (get_todo_endpoint i outO t).status = 500) ∧
    ((create_todo_endpoint outR t).status = 201 ∨
      (create_todo_endpoint outR t).status = 500) ∧
    ((update_todo_endpoint i outO2 t).status = 200 ∨
      (update_todo_endpoint i outO2 t).status = 404 ∨
      (update_todo_endpoint i outO2 t).status = 500) ∧
    ((delete_todo_endpoint i outB t).status = 204 ∨
      (delete_todo_endpoint i outB t).status = 404 ∨
      (delete_todo_endpoint i outB t).status = 500) ∧
    ((test_select_one_endpoint outI t).status = 200 ∨
      (test_select_one_endpoint outI t).status = 500) := by
  refine ⟨rfl, rfl, rfl, rfl, rfl, rfl, rfl, rfl, rfl, rfl, rfl, rfl, rfl, rfl,
    ?_, ?_, ?_, ?_, ?_, ?_⟩
  · cases outL <;> simp [list_todos_endpoint]
  · cases outO with
    | ok a => cases a <;> simp [get_todo_endpoint]
    | sqlError m2 => simp [get_todo_endpoint]
    | exn m2 => simp [get_todo_endpoint]
  · cases outR <;> simp [create_todo_endpoint]
  · cases outO2 with
    | ok a => cases a <;> simp [update_todo_endpoint]
    | sqlError m2 => simp [update_todo_endpoint]
    | exn m2 => simp [update_todo_endpoint]
  · cases outB with
    | ok b => cases b <;> simp [delete_todo_endpoint]
    | sqlError m2 => simp [delete_todo_endpoint]
    | exn m2 => simp [delete_todo_endpoint]
  · cases outI <;> simp [test_select_one_endpoint]

/-- A `CREATE INDEX IF NOT EXISTS` step always succeeds, leaves the
table and columns untouched, ensures the index exists afterwards, and
keeps every existing index. -/
theorem execDdl_createIndex_exists (s : Schema) (n : String) :
    ∃ s₂, execDdl s (.createIndexIfNotExists n) = Except.ok s₂ ∧
      s₂.hasTodosTable = s.hasTodosTable ∧ s₂.columns = s.columns ∧
      n ∈ s₂.indexes ∧ ∀ m ∈ s.indexes, m ∈ s₂.indexes := by
  simp only [execDdl]
  split
  · next h =>
    exact ⟨s, rfl, rfl, rfl, List.mem_of_elem_eq_true h, fun m hm => hm⟩
  · next h =>
    refine ⟨{ s with indexes := s.indexes ++ [n] }, rfl, rfl, rfl, ?_, ?_⟩
    · exact List.mem_append_right _ (List.mem_singleton.mpr rfl)
    · intro m hm
      exact List.mem_append_left _ hm

/-- A `CREATE INDEX IF NOT EXISTS` step on an already-present index is
a no-op. -/
theorem execDdl_createIndex_mem (s : Schema) (n : String) (h : n ∈ s.indexes) :
    execDdl s (.createIndexIfNotExists n) = Except.ok s := by
  simp only [execDdl]
  rw [if_pos (List.elem_eq_true_of_mem h)]

/-- Running the index migration always succeeds and afterwards all
four indexes exist (existing ones being preserved). -/
theorem runDdl_indexes (s : Schema) :
    ∃ s', runDdl s addTodoIndexesUpgrade = Except.ok s' ∧
      "idx_todos_completed" ∈ s'.indexes ∧
      "idx_todos_priority" ∈ s'.indexes ∧
      "idx_todos_created_at" ∈ s'.indexes ∧
      "idx_todos_completed_priority" ∈ s'.indexes := by
  obtain ⟨s1, e1, _, _, hm1, _⟩ := execDdl_createIndex_exists s "idx_todos_completed"
  obtain ⟨s2, e2, _, _, hm2, hk2⟩ := execDdl_createIndex_exists s1 "idx_todos_priority"
  obtain ⟨s3, e3, _, _, hm3, hk3⟩ := execDdl_createIndex_exists s2 "idx_todos_created_at"
  obtain ⟨s4, e4, _, _, hm4, hk4⟩ :=
    execDdl_createIndex_exists s3 "idx_todos_completed_priority"
  refine ⟨s4, ?_, ?_, ?_, ?_, ?_⟩
  · simp [addTodoIndexesUpgrade, runDdl, e1, e2, e3, e4]
  · exact hk4 _ (hk3 _ (hk2 _ hm1))
  · exact hk4 _ (hk3 _ hm2)
  · exact hk4 _ hm3
  · exact hm4

/-- C2 counterexample: starting from a fresh database the full
migration chain succeeds, but re-running the payload-column script's
upgrade against the already-migrated schema fails with a
duplicate-column error, so the migration DDL is not all idempotent. -/
theorem migration_rerun_counterexample :
    run_migrations freshMigState =
      Except.ok (⟨some headRev, appliedSchema⟩,
        initialTodosTableUpgrade ++ addTodoIndexesUpgrade ++ addPayloadColumnUpgrade) ∧
    runDdl appliedSchema addPayloadColumnUpgrade =
      Except.error "duplicate column name: payload" ∧
    runDdl appliedSchema initialTodosTableUpgrade =
      Except.error "relation todos already exists" := by
  refine ⟨rfl, rfl, rfl⟩

/-- C2 (amended): only the `add_todo_indexes` migration's DDL is
idempotent and guarded (`CREATE INDEX IF NOT EXISTS`): its upgrade
always succeeds and a second run leaves the schema unchanged.  The
other two scripts' DDL is unguarded (their second direct run fails, as
the counterexample shows); startup re-run safety for them comes from
`run_migrations` skipping everything once the stamped revision equals
head. -/
theorem migration_idempotence_amended (s s' : Schema) (st : MigState) :
    ((runDdl s addTodoIndexesUpgrade).isOk = true) ∧
    (runDdl s addTodoIndexesUpgrade = Except.ok s' →
      runDdl s' addTodoIndexesUpgrade = Except.ok s') ∧
    (st.currentRev = some headRev → run_migrations st = Except.ok (st, [])) := by
  refine ⟨?_, ?_, ?_⟩
  · obtain ⟨s2, he, -, -, -, -⟩ := runDdl_indexes s
    rw [he]
    rfl
  · intro h
    obtain ⟨s2, he, h1, h2, h3, h4⟩ := runDdl_indexes s
    rw [h] at he
    cases he
    have e1 := execDdl_createIndex_mem s' _ h1
    have e2 := execDdl_createIndex_mem s' _ h2
    have e3 := execDdl_createIndex_mem s' _ h3
    have e4 := execDdl_createIndex_mem s' _ h4
    simp [addTodoIndexesUpgrade, runDdl, e1, e2, e3, e4]
  · intro h
    unfold run_migrations
    rw [if_pos h]

/-- Witness for C2 (amended): with the head revision already stamped,
`run_migrations` executes no DDL and returns the state unchanged. -/
theorem migration_idempotence_amended_witness :
    run_migrations ⟨some headRev, appliedSchema⟩ =
      Except.ok (⟨some headRev, appliedSchema⟩, []) :=
  (migration_idempotence_amended appliedSchema appliedSchema
      ⟨some headRev, appliedSchema⟩).2.2 rfl

/-- C3 counterexample: with a MySQL URL and no explicit type,
`detect_backend_type` returns `mysql`, which is not `postgresql` or
`sqlite`, and `get_backend` applied to it raises `ValueError` instead
of yielding a registered backend. -/
theorem backend_selector_counterexample :
    detect_backend_type mysqlConfig = "mysql" ∧
    detect_backend_type mysqlConfig ≠ "postgresql" ∧
    detect_backend_type mysqlConfig ≠ "sqlite" ∧
    get_backend (detect_backend_type mysqlConfig) =
      Except.error "Unknown database backend mysql" := by
  refine ⟨rfl, by decide, by decide, rfl⟩

/-- C3 (amended): `detect_backend_type` can also return `mysql` (for a
`mysql` URL) or any lowercased explicit type field, and `get_backend`
then raises; when no explicit type is given and the URL, if any, does
not start with `mysql`, the selector returns only `postgresql` or
`sqlite`, and `get_backend` applied to that result yields the
registered backend. -/
theorem backend_selector_amended (config : DbConfig) (u : String) :
    (config.type? = none →
      (config.url? = none ∨
        (config.url? = some u ∧ strStartsWith (strToLower u) "mysql" = false)) →
      (detect_backend_type config = "postgresql" ∨
        detect_backend_type config = "sqlite") ∧
      get_backend (detect_backend_type config) =
        Except.ok (detect_backend_type config)) ∧
    ((get_backend "postgresql").isOk = true) ∧
    ((get_backend "sqlite").isOk = true) := by
  refine ⟨?_, rfl, rfl⟩
  intro hT hU
  have hd : detect_backend_type config = "postgresql" ∨
      detect_backend_type config = "sqlite" := by
    rcases config with ⟨t?, u?, d?, hh, hp⟩
    simp only at hT hU
    subst hT
    unfold detect_backend_type
    rcases hU with hU | ⟨hU, hm⟩ <;> subst hU <;> dsimp only
    · cases d? with
      | none => left; rfl
      | some path =>
        dsimp only
        split
        · right; rfl
        · left; rfl
    · by_cases h1 : strStartsWith (strToLower u) "sqlite" = true
      · rw [if_pos h1]
        right
        rfl
      · rw [if_neg (by simp [h1])]
        by_cases h2 : strStartsWith (strToLower u) "postgresql" = true
        · rw [if_pos h2]
          left
          rfl
        · rw [if_neg (by simp [h2]), if_neg (by simp [hm])]
          cases d? with
          | none => left; rfl
          | some path =>
            dsimp only
            split
            · right; rfl
            · left; rfl
  refine ⟨hd, ?_⟩
  rcases hd with h | h <;> rw [h] <;> rfl

/-- Witness for C3 (amended): a file-path configuration with no type
and no URL selects SQLite and gets a registered backend. -/
theorem backend_selector_amended_witness :
    (detect_backend_type ⟨none, none, some "genesis.db", false, false⟩ = "postgresql" ∨
      detect_backend_type ⟨none, none, some "genesis.db", false, false⟩ = "sqlite") ∧
    get_backend (detect_backend_type ⟨none, none, some "genesis.db", false, false⟩) =
      Except.ok (detect_backend_type ⟨none, none, some "genesis.db", false, false⟩) :=
  (backend_selector_amended ⟨none, none, some "genesis.db", false, false⟩ "").1
    rfl (Or.inl rfl)

/-- Witness for C8: in the database produced by a concrete create, the
pre-existing sample row satisfies the disjunction of the theorem's
last conjunct. -/
theorem create_todo_never_completed_witness :
    rowEx ∈ dbEx.rows ∨ rowEx.completed = false :=
  (create_todo_never_completed dbEx 11 ⟨"x", none, 2, none, none⟩).2.2 rowEx (by decide)
